import Mathlib

/-!
Verification development for the telemetry normalization and emission engine
of null_iron_heart: the binary heart-rate frame decoder
(src/heart_rate/measurement.rs), the websocket text-feed ingest
(src/heart_rate/websocket.rs), and the OSC emission scheduler (src/osc.rs).

Embedding conventions:
- Rust unsigned integers (`u8`, `u16`, `u64`) are embedded as `Nat`; where
  saturation matters it is made explicit.
- `std::time::Duration` values and `f32` second counts are embedded as exact
  rationals (`Rat`, in seconds).  The `f32` values that occur here
  (u16 ticks / 1024, milliseconds / 1000, bpm / 255) are modelled with exact
  rational arithmetic.
- Byte slices are embedded as `List Nat`.  Rust's panicking index `data[i]`
  is embedded as `List.getD data i 0`; all theorems about the decoder carry
  the caller-guaranteed minimum-length hypothesis under which the two agree.
-/

/-- Battery indicator of a status.  The enum itself lives in
`src/heart_rate/mod.rs`, which is not part of the provided sources; modelled
from the spec: three-valued battery indicator
(not-reported / unknown / reported-percentage), with the `NotReported` and
`Level` constructors witnessed by uses in `src/heart_rate/websocket.rs`. -/
inductive BatteryLevel where
  | NotReported : BatteryLevel
  | Unknown : BatteryLevel
  | Level : Nat → BatteryLevel
deriving DecidableEq, Repr

/-- The system's current belief about heart activity.  The struct lives in
`src/heart_rate/mod.rs`, which is not part of the provided sources; modelled
from the spec (§3 Status: bpm, battery indicator, most recent interval
sequence, two twitch flags), with every field witnessed by uses in
`src/osc.rs` and `src/heart_rate/websocket.rs`.  `rr_intervals` holds
inter-beat intervals in seconds. -/
structure HeartRateStatus where
  heart_rate_bpm : Nat
  battery_level : BatteryLevel
  rr_intervals : List Rat
  twitch_up : Bool
  twitch_down : Bool
deriving DecidableEq, Repr

/-- Modelled from the spec: Status is "created at startup with a default
(zero/unknown) state" (§3).  Mirrors `HeartRateStatus::default()`. -/
def HeartRateStatus.default : HeartRateStatus :=
  { heart_rate_bpm := 0
  , battery_level := BatteryLevel.Unknown
  , rr_intervals := []
  , twitch_up := false
  , twitch_down := false }

/-- One decoded sensor reading; `src/heart_rate/measurement.rs`,
`HeartRateMeasurement`.  `rr_intervals` is in seconds (source:
`Duration::from_secs_f32(ticks / 1024.0)`, exact for u16 tick counts). -/
structure HeartRateMeasurement where
  bpm : Nat
  is_sensor_contact_detected : Option Bool
  energy_expended : Option Nat
  rr_intervals : List Rat
deriving DecidableEq, Repr

/-- Embeds `u16::from_le_bytes([lo, hi])` on byte values. -/
def u16_from_le_bytes (lo hi : Nat) : Nat := lo + 256 * hi

/-- The frame decoder `parse_hrm` of `src/heart_rate/measurement.rs`
(lines 32-71).  Field-for-field translation; `data[i]` is embedded as
`data.getD i 0` (the source assumes a valid input and would panic out of
bounds; the theorems below restrict to the caller-guaranteed lengths). -/
def parse_hrm (data : List Nat) : HeartRateMeasurement :=
  let is_16_bit := Nat.land (data.getD 0 0) 1 = 1
  let has_sensor_detection := Nat.land (data.getD 0 0) 4 = 4
  let has_energy_expended := Nat.land (data.getD 0 0) 8 = 8
  let energy_expended_index := 2 + if is_16_bit then 1 else 0
  let rr_interval_index :=
    2 + (if has_energy_expended then 2 else 0) + (if is_16_bit then 1 else 0)
  { bpm :=
      if is_16_bit then
        u16_from_le_bytes (data.getD 1 0) (data.getD 2 0)
      else
        data.getD 1 0
  , is_sensor_contact_detected :=
      if has_sensor_detection then
        some (decide (Nat.land (data.getD 0 0) 2 = 2))
      else
        none
  , energy_expended :=
      if has_energy_expended then
        some (u16_from_le_bytes (data.getD energy_expended_index 0)
          (data.getD (energy_expended_index + 1) 0))
      else
        none
  , rr_intervals :=
      let rr_interval_count := (data.length - rr_interval_index) / 2
      (List.range rr_interval_count).map (fun i =>
        ((u16_from_le_bytes (data.getD (rr_interval_index + 2 * i) 0)
          (data.getD (rr_interval_index + 2 * i + 1) 0) : Nat) : Rat) / 1024) }

/-- The minimum input length the caller must guarantee for `parse_hrm`:
flags byte, the 1- or 2-byte bpm field, and the optional 2-byte energy
field (this equals the source's `rr_interval_index`). -/
def parse_hrm_min_len (data : List Nat) : Nat :=
  2 + (if Nat.land (data.getD 0 0) 8 = 8 then 2 else 0)
    + (if Nat.land (data.getD 0 0) 1 = 1 then 1 else 0)

/-- Decoded JSON heart-rate record; `src/heart_rate/websocket.rs`,
`JSONHeartRate` (lines 20-27).  `latest_rr_ms` is in milliseconds. -/
structure JSONHeartRate where
  bpm : Nat
  latest_rr_ms : Option Nat
  battery : Option Nat
deriving DecidableEq, Repr

/-- Modelled from the spec: the Twitch Detector (`Twitcher` of
`src/heart_rate/twitcher.rs` is not part of the provided sources).  Spec
§4.3: compare the most recent interval against `expected = 60 / bpm`
seconds; rising iff actual shorter than expected by more than the threshold
fraction, falling iff longer by more than the threshold fraction; empty
interval sequence gives both false; tie resolves to no twitch.  Pure in the
threshold. -/
def twitcher_handle (threshold : Rat) (bpm : Nat) (rr_intervals : List Rat) :
    Bool × Bool :=
  match rr_intervals.getLast? with
  | none => (false, false)
  | some actual =>
    let expected : Rat := 60 / (bpm : Rat)
    (decide (expected - actual > threshold * expected),
     decide (actual - expected > threshold * expected))

/-- The `while !self.hr_status.rr_intervals.is_empty() { ... pop() }` loop of
`src/heart_rate/websocket.rs` (lines 174-176): pop the last element until
the vector is empty. -/
def popAllLoop : List Rat → List Rat
  | [] => []
  | x :: xs => popAllLoop (x :: xs).dropLast
termination_by l => l.length
decreasing_by
  simp [List.length_dropLast]

/-- The successful-decode branch of `handle_ws_message`
(`src/heart_rate/websocket.rs`, lines 168-186): fold one decoded
`JSONHeartRate` into the stored status.  `Duration::from_millis(rr)` becomes
`rr / 1000` seconds. -/
def apply_json_update (threshold : Rat) (hr_status : HeartRateStatus)
    (new_status : JSONHeartRate) : HeartRateStatus :=
  let st1 := { hr_status with heart_rate_bpm := new_status.bpm }
  let st2 :=
    match new_status.battery with
    | some battery => { st1 with battery_level := BatteryLevel.Level battery }
    | none => st1
  let st3 :=
    match new_status.latest_rr_ms with
    | some rr =>
        { st2 with rr_intervals :=
            popAllLoop st2.rr_intervals ++ [((rr : Nat) : Rat) / 1000] }
    | none => st2
  let tw := twitcher_handle threshold new_status.bpm st3.rr_intervals
  { st3 with twitch_up := tw.1, twitch_down := tw.2 }

/-- User-facing error notifications; `ErrorPopup` of `src/app.rs` (not part
of the provided sources), constructors witnessed by uses in
`src/heart_rate/websocket.rs`. -/
inductive ErrorPopup where
  | Intermittent : String → ErrorPopup
  | UserMustDismiss : String → ErrorPopup
deriving DecidableEq, Repr

/-- Updates broadcast to the rest of the app; `AppUpdate` of `src/app.rs`
(not part of the provided sources); the two variants used by
`handle_ws_message` are an error popup and a new heart-rate status. -/
inductive AppUpdate where
  | Error : ErrorPopup → AppUpdate
  | HeartRateStatus : HeartRateStatus → AppUpdate
deriving DecidableEq, Repr

/-- An inbound websocket frame: a text frame with its content, or a
non-text frame (rendered here only by the debug text the source would
format it with). -/
inductive WsMessage where
  | text : String → WsMessage
  | other : String → WsMessage
deriving DecidableEq, Repr

/-- Embeds `handle_ws_message` of `src/heart_rate/websocket.rs` (lines 129-198).
`item` is the websocket stream item (`None` = stream ended, `some (.error e)`
= transport error, `some (.ok m)` = a frame).  JSON decoding
(`serde_json::from_str`) is external; it is passed in as `decode`.  The
source mutates `self.hr_status` and returns `(AppUpdate, keep_conn)`;
embedded as a function returning the new stored status alongside them.
The returned `Bool` is `keep_conn`: `false` breaks the receiving loop
(`server_loop`, lines 104-118). -/
def handle_ws_message (decode : String → Option JSONHeartRate)
    (threshold : Rat) (hr_status : HeartRateStatus)
    (item : Option (Except String WsMessage)) :
    HeartRateStatus × AppUpdate × Bool :=
  match item with
  | some (Except.ok (WsMessage.text message)) =>
    match decode message with
    | some new_status =>
      let st := apply_json_update threshold hr_status new_status
      (st, AppUpdate.HeartRateStatus st, true)
    | none =>
      (hr_status,
       AppUpdate.Error (ErrorPopup.Intermittent
         (String.append "Invalid heart rate message: " message)),
       true)
  | some (Except.ok (WsMessage.other dbg)) =>
    (hr_status,
     AppUpdate.Error (ErrorPopup.UserMustDismiss
       (String.append "Invalid message type (expected text): " dbg)),
     true)
  | some (Except.error e) =>
    (hr_status,
     AppUpdate.Error (ErrorPopup.Intermittent
       (String.append "Error receiving message: " e)),
     false)
  | none =>
    (hr_status,
     AppUpdate.Error (ErrorPopup.Intermittent "Websocket client disconnected"),
     false)

/-- OSC configuration; `src/settings.rs`, `OSCSettings` (lines 28-41).
(`src/osc.rs` line 197 additionally reads a `hide_disconnections_pre`
policy flag from these settings; the `settings.rs` snapshot predates that
field, so the scheduler functions below take the policy flag as an explicit
argument instead.) -/
structure OSCSettings where
  host_ip : String
  target_ip : String
  port : Nat
  pulse_length_ms : Nat
  only_positive_floathr : Bool
  address_prefix : String
  param_hrm_connected : String
  param_beat_toggle : String
  param_beat_pulse : String
  param_bpm_int : String
  param_bpm_float : String
  param_latest_rr_int : String
deriving DecidableEq, Repr

/-- The duplicate-separator collapsing loop of `format_address`
(`src/osc.rs`, lines 101-103): repeatedly replace the leftmost `"//"` by
`"/"`, at the character level. -/
def collapseSlashes : List Char → List Char
  | [] => []
  | [c] => [c]
  | c1 :: c2 :: rest =>
    if c1 = '/' ∧ c2 = '/' then collapseSlashes ('/' :: rest)
    else c1 :: collapseSlashes (c2 :: rest)
termination_by l => l.length
decreasing_by
  all_goals simp_arith

/-- Embeds `format_address` of `src/osc.rs` (lines 99-105):
`format!` of prefix, `"/"`, param, then collapse duplicate separators. -/
def format_address (osc_settings : OSCSettings) (param : String) : String :=
  String.mk (collapseSlashes
    (String.toList (String.append ( OSCSettings.address_prefix osc_settings)
      (String.append "/" param))))

/-- The fixed outbound address set; `src/osc.rs`, `OSCAddresses`
(lines 88-97). -/
structure OSCAddresses where
  beat_toggle : String
  beat_pulse : String
  int_hr : String
  float_hr : String
  connected : String
  latest_rr : String
deriving DecidableEq, Repr

/-- Embeds `OSCAddresses::new` of `src/osc.rs` (lines 108-117). -/
def OSCAddresses.new (osc_settings : OSCSettings) : OSCAddresses :=
  { beat_toggle := format_address osc_settings osc_settings.param_beat_toggle
  , beat_pulse := format_address osc_settings osc_settings.param_beat_pulse
  , int_hr := format_address osc_settings osc_settings.param_bpm_int
  , float_hr := format_address osc_settings osc_settings.param_bpm_float
  , connected := format_address osc_settings osc_settings.param_hrm_connected
  , latest_rr := format_address osc_settings osc_settings.param_latest_rr_int }

/-- OSC argument values (the `rosc::OscType` cases used here; constructor
names lowercased).  `float` carries the exact rational model of the `f32`. -/
inductive OscType where
  | int : Int → OscType
  | float : Rat → OscType
  | bool : Bool → OscType
deriving DecidableEq, Repr

/-- One OSC message; `rosc::OscMessage` (address plus argument list). -/
structure OscMessage where
  addr : String
  args : List OscType
deriving DecidableEq, Repr

/-- Rust `as i32` applied to a (finite) `f32`: truncation toward zero,
modelled on the exact rational. -/
def f32_as_i32 (q : Rat) : Int :=
  if 0 ≤ q then Rat.floor q else -(Rat.floor (-q))

/-- Embeds `form_bpm_bundle` of `src/osc.rs` (lines 22-65), as the ordered content
list of the bundle (the constant zero timetag `OSC_NOW` is dropped).  Note
the source pushes the latest-rr message (when any) first, then the int,
float and connected messages. -/
def form_bpm_bundle (hr_status : HeartRateStatus)
    (osc_addresses : OSCAddresses) : List OscMessage :=
  let int_hr_msg : OscMessage :=
    { addr := osc_addresses.int_hr
    , args := [OscType.int (Int.ofNat hr_status.heart_rate_bpm)] }
  let float_hr_msg : OscMessage :=
    { addr := osc_addresses.float_hr
    , args := [OscType.float
        (((hr_status.heart_rate_bpm : Rat) / 255) * 2 - 1)] }
  let connected_msg : OscMessage :=
    { addr := osc_addresses.connected
    , args := [OscType.bool (decide (0 < hr_status.heart_rate_bpm))] }
  let rr_msgs : List OscMessage :=
    if hr_status.heart_rate_bpm = 0 then
      [{ addr := osc_addresses.latest_rr, args := [OscType.int 0] }]
    else
      match hr_status.rr_intervals.getLast? with
      | some latest_rr =>
        [{ addr := osc_addresses.latest_rr
         , args := [OscType.int (f32_as_i32 (latest_rr * 1000))] }]
      | none => []
  rr_msgs ++ [int_hr_msg, float_hr_msg, connected_msg]

/-- Embeds `rr_from_bpm` of `src/osc.rs` (lines 123-125): the interval implied by
bpm, `60 / bpm` seconds (only ever called with `bpm > 0`). -/
def rr_from_bpm (bpm : Nat) : Rat := 60 / (bpm : Rat)

/-- Embeds `u16::saturating_add_signed`. -/
def u16_saturating_add_signed (n : Nat) (i : Int) : Nat :=
  min (((n : Int) + i).toNat) 65535

set_option linter.unusedVariables false in
/-- Embeds `mimic_hr_activity` of `src/osc.rs` (lines 127-136).  Faithful to the
source: it builds `HeartRateStatus::default()` and adds the jitter (a
constant `0`, the random range being commented out) to the DEFAULT status's
bpm; the `hr_status` argument is never read. -/
def mimic_hr_activity (hr_status : HeartRateStatus) : HeartRateStatus :=
  let mimic := HeartRateStatus.default
  let jitter : Int := 0
  { mimic with heart_rate_bpm :=
      u16_saturating_add_signed mimic.heart_rate_bpm jitter }

/-- The mutable local state of `osc_thread` (`src/osc.rs`, lines 161-173):
cached status, beat toggle, the real-interval latch `use_real_rr`, the
stored period `latest_rr` (seconds), the mimic flag, and the current period
of the heartbeat timer. -/
structure OscState where
  hr_status : HeartRateStatus
  toggle_beat : Bool
  use_real_rr : Bool
  latest_rr : Rat
  mimic_ble_activity : Bool
  beat_interval_period : Rat
deriving DecidableEq, Repr

/-- Initial state of `osc_thread`: default status, `toggle_beat = true`,
`use_real_rr = false`, `latest_rr` = 1 s (and the heartbeat timer armed at
that period), `mimic_ble_activity = false`. -/
def initOscState : OscState :=
  { hr_status := HeartRateStatus.default
  , toggle_beat := true
  , use_real_rr := false
  , latest_rr := 1
  , mimic_ble_activity := false
  , beat_interval_period := 1 }

/-- One wake-up of the `tokio::select!` loop of `osc_thread`: a received
status update, channel closure, the shutdown signal, a heartbeat-timer
tick, or a mimic-timer tick. -/
inductive OscEvent where
  | update : HeartRateStatus → OscEvent
  | channelClosed : OscEvent
  | shutdown : OscEvent
  | beatTick : OscEvent
  | mimicTick : OscEvent
deriving DecidableEq, Repr

/-- An outbound datagram: a bpm bundle (`send_bpm_bundle`) or a single
boolean beat parameter (`send_beat_param`). -/
inductive OutPacket where
  | bundle : List OscMessage → OutPacket
  | beat : String → Bool → OutPacket
deriving DecidableEq, Repr

/-- The `hr_data = locked_receiver.recv()` arm of `osc_thread`
(`src/osc.rs`, lines 184-203), `Some(data)` case: replace the cached
status on a non-zero reading, update `latest_rr` from the reading's last
interval (latching `use_real_rr`) or -- only while `use_real_rr` is still
false -- from bpm, clear the mimic flag, and send a bundle; on a zero
reading either set the mimic flag (hide-disconnections policy) or store
and send the zero status. -/
def handle_hr_update (hide_disconnections : Bool)
    (osc_addresses : OSCAddresses) (s : OscState) (data : HeartRateStatus) :
    OscState × List OutPacket :=
  if 0 < data.heart_rate_bpm then
    let s1 := { s with hr_status := data }
    let s2 :=
      match s1.hr_status.rr_intervals.getLast? with
      | some new_rr => { s1 with latest_rr := new_rr, use_real_rr := true }
      | none =>
        if s1.use_real_rr = false then
          { s1 with latest_rr := rr_from_bpm s1.hr_status.heart_rate_bpm }
        else s1
    let s3 := { s2 with mimic_ble_activity := false }
    (s3, [OutPacket.bundle (form_bpm_bundle s3.hr_status osc_addresses)])
  else
    if hide_disconnections then
      ({ s with mimic_ble_activity := true }, [])
    else
      let s1 := { s with hr_status := data }
      (s1, [OutPacket.bundle (form_bpm_bundle s1.hr_status osc_addresses)])

/-- One iteration of the `osc_thread` select loop (`src/osc.rs`,
lines 180-233): the new state, the datagrams sent during the arm, and
whether the loop continues (`false` for the two `break` arms: channel
closed, shutdown). -/
def oscStep (hide_disconnections : Bool) (beat_pulse_duration : Rat)
    (osc_addresses : OSCAddresses) (s : OscState) (ev : OscEvent) :
    OscState × List OutPacket × Bool :=
  match ev with
  | OscEvent.update data =>
    let r := handle_hr_update hide_disconnections osc_addresses s data
    (r.1, r.2, true)
  | OscEvent.channelClosed => (s, [], false)
  | OscEvent.shutdown => (s, [], false)
  | OscEvent.beatTick =>
    if 0 < s.hr_status.heart_rate_bpm then
      ({ s with
          toggle_beat := (!s.toggle_beat),
          beat_interval_period := max (s.latest_rr - beat_pulse_duration) 0 },
       [OutPacket.beat osc_addresses.beat_toggle s.toggle_beat,
        OutPacket.beat osc_addresses.beat_pulse true,
        OutPacket.beat osc_addresses.beat_pulse false],
       true)
    else (s, [], true)
  | OscEvent.mimicTick =>
    if s.mimic_ble_activity = true ∧ 0 < s.hr_status.heart_rate_bpm then
      (s,
       [OutPacket.bundle
         (form_bpm_bundle (mimic_hr_activity s.hr_status) osc_addresses)],
       true)
    else (s, [], true)

/-- The `osc_thread` select loop run over a finite schedule of wake-ups,
collecting every datagram sent, and stopping early on a `break` arm. -/
def oscRun (hide_disconnections : Bool) (beat_pulse_duration : Rat)
    (osc_addresses : OSCAddresses) :
    OscState → List OscEvent → OscState × List OutPacket
  | s, [] => (s, [])
  | s, ev :: evs =>
    match oscStep hide_disconnections beat_pulse_duration osc_addresses s ev with
    | (s', ps, true) =>
      let r := oscRun hide_disconnections beat_pulse_duration osc_addresses s' evs
      (r.1, ps ++ r.2)
    | (s', ps, false) => (s', ps)

/-- Fallible-send model.  `send_bpm_bundle` (`src/osc.rs`, lines 67-76) and
`send_beat_param` (lines 78-86) call `socket.send_to(..).unwrap()`: the
datagram is attempted exactly once and an `Err` panics.  `outcomes n` is
the success of the n-th `send_to` call of the session; `none` models the
panic that unwinds the thread.  (`encoder::encode(..).unwrap()` is modelled
as infallible: the bundles built here always encode.) -/
def try_send (outcomes : Nat → Bool) (n : Nat) : Option Nat :=
  if outcomes n then some (n + 1) else none

/-- Send a list of datagrams in order through `try_send`, threading the
send counter; the first failure panics (`none`) and no datagram is ever
attempted twice. -/
def send_all (outcomes : Nat → Bool) : Nat → List OutPacket → Option Nat
  | n, [] => some n
  | n, _p :: ps =>
    match try_send outcomes n with
    | some n' => send_all outcomes n' ps
    | none => none

/-- The `osc_thread` select loop with the fallible send layer: each arm's
datagrams are sent before the next wake-up is processed; a send failure
panics (`none`), ending the run with no further event processed. -/
def oscRunF (hide_disconnections : Bool) (beat_pulse_duration : Rat)
    (osc_addresses : OSCAddresses) (outcomes : Nat → Bool) :
    OscState → Nat → List OscEvent → Option (OscState × Nat)
  | s, n, [] => some (s, n)
  | s, n, ev :: evs =>
    match oscStep hide_disconnections beat_pulse_duration osc_addresses s ev with
    | (s', ps, cont) =>
      match send_all outcomes n ps with
      | none => none
      | some n' =>
        if cont then
          oscRunF hide_disconnections beat_pulse_duration osc_addresses
            outcomes s' n' evs
        else some (s', n')

/-- Concrete address set used by witnesses and counterexamples (six
pairwise-distinct address strings). -/
def demoAddrs : OSCAddresses :=
  { beat_toggle := "bt"
  , beat_pulse := "bp"
  , int_hr := "ihr"
  , float_hr := "fhr"
  , connected := "conn"
  , latest_rr := "lrr" }

/-- A connected status with no interval reading. -/
def hr70 : HeartRateStatus :=
  { heart_rate_bpm := 70
  , battery_level := BatteryLevel.Unknown
  , rr_intervals := []
  , twitch_up := false
  , twitch_down := false }

/-- A second connected status with no interval reading. -/
def hr80 : HeartRateStatus :=
  { hr70 with heart_rate_bpm := 80 }

/-- Holds (`true`) unless the event is a status update carrying at least one
inter-beat interval. -/
def updateCarriesNoInterval : OscEvent → Bool
  | OscEvent.update d => d.rr_intervals.isEmpty
  | _ => true

/-- A scheduler state that has already latched a real interval reading:
`use_real_rr = true` with stored period 4/5 s (i.e. 800 ms). -/
def realRRState : OscState :=
  { initOscState with use_real_rr := true, latest_rr := (4 : Rat) / 5 }

/-- C6: decoding `[0b10000, 70, 10, 1, 11, 2, 12, 3]` yields bpm 70, no
sensor-contact field, no energy field, and the interval sequence
`[266/1024 s, 523/1024 s, 780/1024 s]` in that order (oldest first):
trailing bytes are consumed as consecutive little-endian 16-bit tick
groups, order preserved, one tick = 1/1024 s. -/
theorem parse_hrm_three_rr_intervals_example :
    parse_hrm [16, 70, 10, 1, 11, 2, 12, 3] =
      { bpm := 70
      , is_sensor_contact_detected := none
      , energy_expended := none
      , rr_intervals :=
          [(266 : Rat) / 1024, (523 : Rat) / 1024, (780 : Rat) / 1024] } := by
  simp [parse_hrm, u16_from_le_bytes]
  norm_num [List.range_succ]

/-- C5: for every input byte sequence meeting the caller-guaranteed minimum
length, decoding is deterministic (`parse_hrm` is a pure function of the
bytes) and field presence exactly matches the flags byte: the
sensor-contact field is present iff bit 2 is set, and then carries bit 1;
the energy-expended field is present iff bit 3 is set; bpm is the 16-bit
little-endian value of bytes 1..2 iff bit 0 is set, else byte 1. -/
theorem parse_hrm_fields_match_flags (data : List Nat)
    (_h : parse_hrm_min_len data ≤ data.length) :
    ((parse_hrm data).is_sensor_contact_detected =
      if Nat.land (data.getD 0 0) 4 = 4 then
        some (decide (Nat.land (data.getD 0 0) 2 = 2))
      else none)
    ∧ ((parse_hrm data).energy_expended.isSome = true ↔
        Nat.land (data.getD 0 0) 8 = 8)
    ∧ ((parse_hrm data).bpm =
        if Nat.land (data.getD 0 0) 1 = 1 then
          u16_from_le_bytes (data.getD 1 0) (data.getD 2 0)
        else data.getD 1 0) := by
  refine ⟨?_, ?_, ?_⟩ <;> simp only [parse_hrm] <;> split <;> simp_all

/-- Witness for C5 at the concrete frame `[0b110, 70]` (sensor contact
supported and detected, 8-bit bpm, no energy field). -/
theorem parse_hrm_fields_match_flags_witness :
    parse_hrm_min_len [6, 70] ≤ ([6, 70] : List Nat).length
    ∧ (((parse_hrm [6, 70]).is_sensor_contact_detected =
        if Nat.land (([6, 70] : List Nat).getD 0 0) 4 = 4 then
          some (decide (Nat.land (([6, 70] : List Nat).getD 0 0) 2 = 2))
        else none)
      ∧ ((parse_hrm [6, 70]).energy_expended.isSome = true ↔
          Nat.land (([6, 70] : List Nat).getD 0 0) 8 = 8)
      ∧ ((parse_hrm [6, 70]).bpm =
          if Nat.land (([6, 70] : List Nat).getD 0 0) 1 = 1 then
            u16_from_le_bytes (([6, 70] : List Nat).getD 1 0)
              (([6, 70] : List Nat).getD 2 0)
          else ([6, 70] : List Nat).getD 1 0)) :=
  ⟨by decide, parse_hrm_fields_match_flags [6, 70] (by decide)⟩

/-- The pop-until-empty loop empties the interval vector. -/
theorem popAllLoop_eq_nil (l : List Rat) : popAllLoop l = [] := by
  induction l using popAllLoop.induct with
  | case1 => rw [popAllLoop]
  | case2 x xs ih => rw [popAllLoop]; exact ih

/-- C7: applying a text-feed update that supplies an interval value
replaces the stored interval sequence with exactly that one newest interval
(length exactly 1; older entries discarded, not appended); an update
without an interval value leaves the stored interval sequence unchanged. -/
theorem apply_json_interval_replaced_or_kept (threshold : Rat)
    (hr_status : HeartRateStatus) (new_status : JSONHeartRate) :
    (apply_json_update threshold hr_status new_status).rr_intervals =
      match new_status.latest_rr_ms with
      | some rr => [((rr : Nat) : Rat) / 1000]
      | none => hr_status.rr_intervals := by
  cases hb : new_status.battery <;> cases hrr : new_status.latest_rr_ms <;>
    simp [apply_json_update, hb, hrr, popAllLoop_eq_nil]

/-- C8: applying a text-feed update modifies the battery indicator only
when the update reports a battery value; when the battery field is absent
the previously stored indicator is unchanged. -/
theorem apply_json_battery_only_when_reported (threshold : Rat)
    (hr_status : HeartRateStatus) (new_status : JSONHeartRate) :
    (apply_json_update threshold hr_status new_status).battery_level =
      match new_status.battery with
      | some battery => BatteryLevel.Level battery
      | none => hr_status.battery_level := by
  cases hb : new_status.battery <;> cases hrr : new_status.latest_rr_ms <;>
    simp [apply_json_update, hb, hrr]

/-- C9: a received text frame whose content fails to decode as a heart-rate
JSON record produces an error report carrying the raw message text, leaves
the stored status unchanged, and keeps the connection open
(`keep_conn = true`, so `server_loop` stays in its receiving loop). -/
theorem ws_bad_text_reports_and_keeps_connection
    (decode : String → Option JSONHeartRate) (threshold : Rat)
    (hr_status : HeartRateStatus) (message : String)
    (h : decode message = none) :
    handle_ws_message decode threshold hr_status
        (some (Except.ok (WsMessage.text message))) =
      (hr_status,
       AppUpdate.Error (ErrorPopup.Intermittent
         (String.append "Invalid heart rate message: " message)),
       true) := by
  simp [handle_ws_message, h]

/-- Witness for C9: a decoder that rejects everything, applied to the
frame `"bad"`. -/
theorem ws_bad_text_reports_and_keeps_connection_witness :
    (fun _ : String => (none : Option JSONHeartRate)) "bad" = none
    ∧ handle_ws_message (fun _ => none) ((1 : Rat) / 10)
        HeartRateStatus.default (some (Except.ok (WsMessage.text "bad"))) =
      (HeartRateStatus.default,
       AppUpdate.Error (ErrorPopup.Intermittent
         (String.append "Invalid heart rate message: " "bad")),
       true) :=
  ⟨rfl, ws_bad_text_reports_and_keeps_connection
    (fun _ => none) ((1 : Rat) / 10) HeartRateStatus.default "bad" rfl⟩

/-- C10: every bundle carries a float bpm argument equal to
`(bpm / 255) * 2 - 1` exactly (so a disconnected status, bpm 0, emits
`-1.0`), and bundle composition does not depend on the
`only_positive_floathr` configuration setting: two settings differing only
in that flag yield identical bundles. -/
theorem float_hr_formula_and_flag_has_no_effect :
    (∀ (hr_status : HeartRateStatus) (osc_addresses : OSCAddresses),
      ({ addr := osc_addresses.float_hr
       , args := [OscType.float
           (((hr_status.heart_rate_bpm : Rat) / 255) * 2 - 1)] } : OscMessage)
        ∈ form_bpm_bundle hr_status osc_addresses)
    ∧ (∀ (hr_status : HeartRateStatus) (osc_addresses : OSCAddresses),
      ({ addr := osc_addresses.float_hr
       , args := [OscType.float (-1)] } : OscMessage)
        ∈ form_bpm_bundle { hr_status with heart_rate_bpm := 0 }
            osc_addresses)
    ∧ (∀ (hip tip : String) (port pl : Nat) (b b' : Bool)
        (pre pc pbt pbp pbi pbf plr : String) (hr_status : HeartRateStatus),
      form_bpm_bundle hr_status
          (OSCAddresses.new ⟨hip, tip, port, pl, b, pre, pc, pbt, pbp, pbi,
            pbf, plr⟩) =
        form_bpm_bundle hr_status
          (OSCAddresses.new ⟨hip, tip, port, pl, b', pre, pc, pbt, pbp, pbi,
            pbf, plr⟩)) := by
  refine ⟨?_, ?_, ?_⟩
  · intro hr_status osc_addresses
    simp [form_bpm_bundle]
  · intro hr_status osc_addresses
    have h : (((0 : Nat) : Rat) / 255) * 2 - 1 = -1 := by norm_num
    simp [form_bpm_bundle, h]
  · intro hip tip port pl b b' pre pc pbt pbp pbi pbf plr hr_status
    rfl

/-- C3 counterexample: for the connected status `hr70` (bpm 70, no interval
reading) the composed bundle contains NO message at the latest-interval
address at all -- in particular no integer argument equal to 0 -- although
the claim requires a latest-interval argument of 0 whenever the status has
no interval reading. -/
theorem bundle_omits_rr_argument_when_connected_without_interval :
    (form_bpm_bundle hr70 demoAddrs).filter
        (fun m => m.addr == demoAddrs.latest_rr) = []
    ∧ hr70.heart_rate_bpm ≠ 0 ∧ hr70.rr_intervals = [] := by
  refine ⟨?_, by decide, rfl⟩
  rfl

/-- C3 amended: the bundle's latest-interval argument is `0` exactly when
the status is disconnected (bpm = 0); when connected and an interval
reading is present it is the most recent interval converted (truncated) to
milliseconds; when connected with no interval reading the latest-interval
message is omitted from the bundle entirely. -/
theorem bundle_rr_argument_cases (hr_status : HeartRateStatus)
    (osc_addresses : OSCAddresses)
    (h1 : osc_addresses.latest_rr ≠ osc_addresses.int_hr)
    (h2 : osc_addresses.latest_rr ≠ osc_addresses.float_hr)
    (h3 : osc_addresses.latest_rr ≠ osc_addresses.connected) :
    (form_bpm_bundle hr_status osc_addresses).filter
        (fun m => m.addr == osc_addresses.latest_rr) =
      if hr_status.heart_rate_bpm = 0 then
        [{ addr := osc_addresses.latest_rr, args := [OscType.int 0] }]
      else
        match hr_status.rr_intervals.getLast? with
        | some latest_rr =>
          [{ addr := osc_addresses.latest_rr
           , args := [OscType.int (f32_as_i32 (latest_rr * 1000))] }]
        | none => [] := by
  have e1 : (osc_addresses.latest_rr == osc_addresses.int_hr) = false := by
    simpa using h1
  have e2 : (osc_addresses.latest_rr == osc_addresses.float_hr) = false := by
    simpa using h2
  have e3 : (osc_addresses.latest_rr == osc_addresses.connected) = false := by
    simpa using h3
  by_cases hz : hr_status.heart_rate_bpm = 0
  · simp [form_bpm_bundle, hz, e1, e2, e3]
    exact ⟨h1.symm, h2.symm, h3.symm⟩
  · cases hlast : hr_status.rr_intervals.getLast? <;>
      · simp [form_bpm_bundle, hz, hlast, e1, e2, e3]
        exact ⟨h1.symm, h2.symm, h3.symm⟩

/-- Witness for C3's amended theorem at the pairwise-distinct `demoAddrs`
and a connected status with one interval reading of 4/5 s. -/
theorem bundle_rr_argument_cases_witness :
    demoAddrs.latest_rr ≠ demoAddrs.int_hr
    ∧ demoAddrs.latest_rr ≠ demoAddrs.float_hr
    ∧ demoAddrs.latest_rr ≠ demoAddrs.connected
    ∧ (form_bpm_bundle { hr70 with rr_intervals := [(4 : Rat) / 5] }
          demoAddrs).filter (fun m => m.addr == demoAddrs.latest_rr) =
      if ({ hr70 with rr_intervals := [(4 : Rat) / 5] }
            : HeartRateStatus).heart_rate_bpm = 0 then
        [{ addr := demoAddrs.latest_rr, args := [OscType.int 0] }]
      else
        match ({ hr70 with rr_intervals := [(4 : Rat) / 5] }
            : HeartRateStatus).rr_intervals.getLast? with
        | some latest_rr =>
          [{ addr := demoAddrs.latest_rr
           , args := [OscType.int (f32_as_i32 (latest_rr * 1000))] }]
        | none => [] :=
  ⟨by decide, by decide, by decide,
   bundle_rr_argument_cases { hr70 with rr_intervals := [(4 : Rat) / 5] }
     demoAddrs (by decide) (by decide) (by decide)⟩

/-- A single select-loop iteration neither changes the stored period
`latest_rr` nor clears the `use_real_rr` latch, provided the latch is set
and the event (if a status update) carries no interval reading. -/
theorem oscStep_keeps_latched_rr (hide_disconnections : Bool)
    (beat_pulse_duration : Rat) (osc_addresses : OSCAddresses)
    (s : OscState) (ev : OscEvent)
    (hev : updateCarriesNoInterval ev = true)
    (hs : s.use_real_rr = true) :
    (oscStep hide_disconnections beat_pulse_duration osc_addresses
        s ev).1.latest_rr = s.latest_rr
    ∧ (oscStep hide_disconnections beat_pulse_duration osc_addresses
        s ev).1.use_real_rr = true := by
  cases ev with
  | update data =>
    have hnil : data.rr_intervals = [] := by
      simpa [updateCarriesNoInterval] using hev
    by_cases hbpm : 0 < data.heart_rate_bpm
    · simp [oscStep, handle_hr_update, hbpm, hnil, hs]
    · by_cases hhide : hide_disconnections <;>
        simp [oscStep, handle_hr_update, hbpm, hhide, hs]
  | channelClosed => exact ⟨rfl, hs⟩
  | shutdown => exact ⟨rfl, hs⟩
  | beatTick =>
    by_cases hbpm : 0 < s.hr_status.heart_rate_bpm <;>
      simp [oscStep, hbpm, hs]
  | mimicTick =>
    by_cases hc : s.mimic_ble_activity = true ∧ 0 < s.hr_status.heart_rate_bpm <;>
      simp [oscStep, hc, hs]

/-- C4: once the scheduler has latched a real interval reading
(`use_real_rr = true`), running the loop over any schedule of wake-ups in
which no status update carries an interval reading leaves the stored
heartbeat period `latest_rr` exactly as it was (it is never recomputed
from bpm), and the latch stays set. -/
theorem latched_rr_never_recomputed_from_bpm (hide_disconnections : Bool)
    (beat_pulse_duration : Rat) (osc_addresses : OSCAddresses)
    (s : OscState) (evs : List OscEvent)
    (hs : s.use_real_rr = true)
    (hevs : evs.all updateCarriesNoInterval = true) :
    (oscRun hide_disconnections beat_pulse_duration osc_addresses
        s evs).1.latest_rr = s.latest_rr
    ∧ (oscRun hide_disconnections beat_pulse_duration osc_addresses
        s evs).1.use_real_rr = true := by
  induction evs generalizing s with
  | nil => exact ⟨rfl, hs⟩
  | cons ev evs ih =>
    have hev : updateCarriesNoInterval ev = true :=
      (List.all_cons .. ▸ hevs |> Bool.and_eq_true_iff.mp).1
    have hrest : evs.all updateCarriesNoInterval = true :=
      (List.all_cons .. ▸ hevs |> Bool.and_eq_true_iff.mp).2
    have hstep := oscStep_keeps_latched_rr hide_disconnections
      beat_pulse_duration osc_addresses s ev hev hs
    rcases hosc : oscStep hide_disconnections beat_pulse_duration
        osc_addresses s ev with ⟨s', ps, cont⟩
    rw [hosc] at hstep
    cases cont with
    | true =>
      have := ih s' (by simpa using hstep.2) hrest
      simp only [oscRun, hosc]
      exact ⟨this.1.trans (by simpa using hstep.1), this.2⟩
    | false =>
      simp only [oscRun, hosc]
      exact ⟨by simpa using hstep.1, by simpa using hstep.2⟩

/-- Witness for C4: starting from `realRRState` (latched period 4/5 s) and
running two interval-free non-zero updates around a heartbeat tick keeps
the stored period at 4/5 s. -/
theorem latched_rr_never_recomputed_from_bpm_witness :
    realRRState.use_real_rr = true
    ∧ ([OscEvent.update hr80, OscEvent.beatTick,
        OscEvent.update hr70].all updateCarriesNoInterval = true)
    ∧ (oscRun false ((1 : Rat) / 10) demoAddrs realRRState
        [OscEvent.update hr80, OscEvent.beatTick,
         OscEvent.update hr70]).1.latest_rr = realRRState.latest_rr
    ∧ (oscRun false ((1 : Rat) / 10) demoAddrs realRRState
        [OscEvent.update hr80, OscEvent.beatTick,
         OscEvent.update hr70]).1.use_real_rr = true :=
  ⟨rfl, rfl,
   latched_rr_never_recomputed_from_bpm false ((1 : Rat) / 10) demoAddrs
     realRRState
     [OscEvent.update hr80, OscEvent.beatTick, OscEvent.update hr70]
     rfl rfl⟩

/-- C1 divergence witness: with the hide-disconnections policy enabled,
after a non-zero update (bpm 70) and a zero-bpm update, the cached status
is still bpm 70 and mimicry is active -- yet the bundle emitted on the
mimic-timer tick is built by `mimic_hr_activity`, which ignores its
argument and returns the DEFAULT status (bpm 0), so that bundle carries a
"connected" argument of `false` (and an integer bpm of 0).  The claim says
no bundle emitted during mimicry is ever disconnected. -/
theorem mimic_tick_emits_disconnected_bundle :
    (oscRun true ((1 : Rat) / 10) demoAddrs initOscState
        [OscEvent.update hr70, OscEvent.update HeartRateStatus.default,
         OscEvent.mimicTick]).2 =
      [OutPacket.bundle (form_bpm_bundle hr70 demoAddrs),
       OutPacket.bundle (form_bpm_bundle (mimic_hr_activity hr70) demoAddrs)]
    ∧ ({ addr := demoAddrs.connected, args := [OscType.bool false] }
        : OscMessage) ∈ form_bpm_bundle (mimic_hr_activity hr70) demoAddrs
    ∧ (mimic_hr_activity hr70).heart_rate_bpm = 0
    ∧ (oscRun true ((1 : Rat) / 10) demoAddrs initOscState
        [OscEvent.update hr70, OscEvent.update HeartRateStatus.default,
         OscEvent.mimicTick]).1.hr_status.heart_rate_bpm = 70
    ∧ (oscRun true ((1 : Rat) / 10) demoAddrs initOscState
        [OscEvent.update hr70, OscEvent.update HeartRateStatus.default,
         OscEvent.mimicTick]).1.mimic_ble_activity = true := by
  refine ⟨rfl, ?_, rfl, rfl, rfl⟩
  have h0 : (mimic_hr_activity hr70).heart_rate_bpm = 0 := rfl
  simp [form_bpm_bundle, h0]

/-- C2 counterexample: a failed datagram send halts the scheduler's loop.
With every send failing, the loop panics on the very first update's send
(`send_to(..).unwrap()`) and never processes the second update; with every
send succeeding, the identical schedule completes normally. -/
theorem send_failure_halts_loop_cex :
    oscRunF true ((1 : Rat) / 10) demoAddrs (fun _ => false) initOscState 0
        [OscEvent.update hr70, OscEvent.update hr80] = none
    ∧ (oscRunF true ((1 : Rat) / 10) demoAddrs (fun _ => true) initOscState 0
        [OscEvent.update hr70, OscEvent.update hr80]).isSome = true := by
  exact ⟨rfl, rfl⟩

/-- C2 amended: an outbound send failure is indeed never retried -- every
datagram is attempted exactly once, and a completed run certifies one
successful attempt per packet -- but it is not reported-and-survived
either: the `unwrap` on the send result panics, halting the scheduler's
loop before any subsequent event is processed. -/
theorem send_failure_not_retried_but_halts :
    (∀ (hide_disconnections : Bool) (beat_pulse_duration : Rat)
       (osc_addresses : OSCAddresses) (outcomes : Nat → Bool) (s : OscState)
       (n : Nat) (data : HeartRateStatus) (evs : List OscEvent),
      outcomes n = false → 0 < data.heart_rate_bpm →
      oscRunF hide_disconnections beat_pulse_duration osc_addresses outcomes
        s n (OscEvent.update data :: evs) = none)
    ∧ (∀ (outcomes : Nat → Bool) (ps : List OutPacket) (n m : Nat),
      send_all outcomes n ps = some m →
      m = n + ps.length ∧ ∀ i, i < ps.length → outcomes (n + i) = true) := by
  constructor
  · intro hide_disconnections beat_pulse_duration osc_addresses outcomes
      s n data evs hfail hbpm
    simp [oscRunF, oscStep, handle_hr_update, hbpm, send_all, try_send, hfail]
  · intro outcomes ps
    induction ps with
    | nil =>
      intro n m h
      simp [send_all] at h
      simp [h]
    | cons p ps ih =>
      intro n m h
      by_cases hout : outcomes n = true
      · simp [send_all, try_send, hout] at h
        rcases ih (n + 1) m h with ⟨hm, hall⟩
        refine ⟨by simpa [Nat.add_comm, Nat.add_left_comm] using hm, ?_⟩
        intro i hi
        cases i with
        | zero => simpa using hout
        | succ j =>
          have := hall j (by simpa using hi)
          simpa [Nat.add_comm, Nat.add_left_comm, Nat.add_assoc] using this
      · simp [send_all, try_send, hout] at h

/-- Witness for C2's amended theorem: with the first send failing, a
single non-zero update halts the run with a panic. -/
theorem send_failure_not_retried_but_halts_witness :
    (fun _ : Nat => false) 0 = false
    ∧ 0 < hr70.heart_rate_bpm
    ∧ oscRunF true ((1 : Rat) / 10) demoAddrs (fun _ => false) initOscState 0
        [OscEvent.update hr70] = none :=
  ⟨rfl, by decide,
   send_failure_not_retried_but_halts.1 true ((1 : Rat) / 10) demoAddrs
     (fun _ => false) initOscState 0 hr70 [] rfl (by decide)⟩
